import Mathlib

/-!
Verification of the `ReverseDigraph` adapter of the `rs-graph` crate
(`src/adapters/reversedigraph.rs`) against its specification.

The capability traits (`GraphType`, `FiniteGraph`, `FiniteDigraph`,
`Undirected`, `Directed`, `IndexGraph`, the `GraphIterator` protocol and
the borrowed/reference-style `*Ref` family) are declared in
`src/traits.rs` / `src/traits/refs.rs`, which are not part of the sources
given; their shapes are modelled from the adapter's use sites and the spec
(sections 4.1-4.4).  The adapter implementations themselves
(`ReverseDigraph`, `ReverseWrapIt`, `ReverseIncidentIt`,
`ReverseDirectedEdge`, `reverse`) are translated line by line from
`reversedigraph.rs`.

A Rust trait with associated types becomes a bundled Lean structure whose
type-valued fields are the associated types; a trait implementation for
`ReverseDigraph` becomes a function from the inner graph's bundle to the
wrapped graph's bundle, mirroring each method body of the source.
Lifetimes are erased.  An iterator's `next(&mut self, g: &G)` becomes a
pure `S -> G -> Option (A × S)` state transformer, and "the sequence an
iterator yields" is its fuelled unfolding `GraphIterator.run`.
-/

namespace RsGraph

/-- Modelled from the spec (section 4.1, `src/traits.rs` not in the sources):
the `GraphIterator` protocol.  `S` is the traversal-state type, `A` the item
type; every step takes the graph as an explicit argument.  `next` returns
the yielded item together with the advanced state. -/
structure GraphIterator (G : Type) (S : Type) (A : Type) where
  next : S → G → Option (A × S)
  size_hint : S → G → Nat × Option Nat
  count : S → G → Nat

/-- The finite list of items produced by running `next` at most `fuel`
times from state `s`, always against the same graph `g`. -/
def GraphIterator.run {G S A : Type} (it : GraphIterator G S A) (g : G) :
    Nat → S → List A
  | 0, _ => []
  | fuel + 1, s =>
    match it.next s g with
    | none => []
    | some (a, s') => a :: it.run g fuel s'

/-- Modelled from the spec (section 2, `src/traits.rs` not in the sources):
`GraphType` declares the node and edge handle types of a graph. -/
structure GraphType where
  Node : Type
  Edge : Type

/-- Modelled from the spec (sections 3 and 4.3, `src/traits.rs` not in the
sources): a directed half-edge handle type `D` with its two orientation
flags and the accessor for the underlying plain edge handle. -/
structure DirectedEdgeImpl (D : Type) (Edge : Type) where
  is_incoming : D → Bool
  is_outgoing : D → Bool
  edge : D → Edge

/-- Modelled from the spec (section 4.2, `src/traits.rs` not in the
sources): the `FiniteGraph` capability for graphs of type `G` with node
handles `Node` and edge handles `Edge`. -/
structure FiniteGraph (G Node Edge : Type) where
  NodeItS : Type
  EdgeItS : Type
  nodeIt : GraphIterator G NodeItS Node
  edgeIt : GraphIterator G EdgeItS Edge
  num_nodes : G → Nat
  num_edges : G → Nat
  nodes_iter : G → NodeItS
  edges_iter : G → EdgeItS
  enodes : G → Edge → Node × Node

/-- Modelled from the spec (section 4.2, `src/traits.rs` not in the
sources): `FiniteDigraph` adds the oriented endpoints `src` and `snk`. -/
structure FiniteDigraph (G Node Edge : Type) extends FiniteGraph G Node Edge where
  src : G → Edge → Node
  snk : G → Edge → Node

/-- Modelled from the spec (section 4.3, `src/traits.rs` not in the
sources): the `Undirected` capability, neighbor enumeration. -/
structure Undirected (G Node Edge : Type) where
  NeighItS : Type
  neighIt : GraphIterator G NeighItS (Edge × Node)
  neigh_iter : G → Node → NeighItS

/-- Modelled from the spec (section 4.3, `src/traits.rs` not in the
sources): the `Directed` capability with outgoing, incoming and incident
enumeration; `DEdge` is the associated `DirectedEdge` half-edge type. -/
structure Directed (G Node Edge : Type) where
  DEdge : Type
  dirEdge : DirectedEdgeImpl DEdge Edge
  OutItS : Type
  InItS : Type
  IncItS : Type
  outIt : GraphIterator G OutItS (Edge × Node)
  inIt : GraphIterator G InItS (Edge × Node)
  incidentIt : GraphIterator G IncItS (DEdge × Node)
  out_iter : G → Node → OutItS
  in_iter : G → Node → InItS
  incident_iter : G → Node → IncItS

/-- Modelled from the spec (section 4.4, `src/traits.rs` not in the
sources): the `IndexGraph` capability, dense integer identifiers. -/
structure IndexGraph (G Node Edge : Type) where
  node_id : G → Node → Nat
  id2node : G → Nat → Node
  edge_id : G → Edge → Nat
  id2edge : G → Nat → Edge

/-- `reversedigraph.rs` line 68: `pub struct ReverseDigraph<'a, G>(&'a G);`
the borrowed reference is modelled as holding the (read-only) graph value. -/
structure ReverseDigraph (G : Type) where
  inner : G

/-- `reversedigraph.rs` line 71: `pub struct ReverseDirectedEdge<E>(E);` -/
structure ReverseDirectedEdge (E : Type) where
  inner : E

/-- `reversedigraph.rs` line 74: `pub struct ReverseWrapIt<I>(I);` its state
is the inner iterator's state, wrapped. -/
structure ReverseWrapIt (S : Type) where
  inner : S

/-- `reversedigraph.rs` line 207: `pub struct ReverseIncidentIt<I>(I);` -/
structure ReverseIncidentIt (S : Type) where
  inner : S

/-- `reversedigraph.rs` lines 76-93: `GraphIterator<ReverseDigraph<G>>`
for `ReverseWrapIt<I>`: every step delegates to the inner iterator on the
inner graph, items unchanged. -/
def ReverseWrapIt.gIter {G S A : Type} (it : GraphIterator G S A) :
    GraphIterator (ReverseDigraph G) (ReverseWrapIt S) A where
  next := fun s g => (it.next s.inner g.inner).map (fun p => (p.1, ⟨p.2⟩))
  size_hint := fun s g => it.size_hint s.inner g.inner
  count := fun s g => it.count s.inner g.inner

/-- `reversedigraph.rs` lines 95-112: `DirectedEdge` for
`ReverseDirectedEdge<E>`: the two orientation flags are swapped, the
underlying plain edge handle passes through. -/
def ReverseDirectedEdge.dirEdge {D Edge : Type} (de : DirectedEdgeImpl D Edge) :
    DirectedEdgeImpl (ReverseDirectedEdge D) Edge where
  is_incoming := fun d => de.is_outgoing d.inner
  is_outgoing := fun d => de.is_incoming d.inner
  edge := fun d => de.edge d.inner

/-- `reversedigraph.rs` lines 209-227: `GraphIterator<ReverseDigraph<G>>`
for `ReverseIncidentIt<I>`: delegates to the inner incidence iterator and
wraps each yielded half-edge in `ReverseDirectedEdge`. -/
def ReverseIncidentIt.gIter {G S D N : Type} (it : GraphIterator G S (D × N)) :
    GraphIterator (ReverseDigraph G) (ReverseIncidentIt S) (ReverseDirectedEdge D × N) where
  next := fun s g =>
    (it.next s.inner g.inner).map (fun p => ((⟨p.1.1⟩, p.1.2), ⟨p.2⟩))
  size_hint := fun s g => it.size_hint s.inner g.inner
  count := fun s g => it.count s.inner g.inner

/-- `reversedigraph.rs` lines 114-121: `GraphType` for `ReverseDigraph`:
node and edge handle types are the wrapped graph's. -/
def ReverseDigraph.graphType (T : GraphType) : GraphType where
  Node := T.Node
  Edge := T.Edge

/-- `reversedigraph.rs` lines 123-156: `FiniteGraph` for `ReverseDigraph`:
counts, enumeration and `enodes` delegate to the wrapped graph. -/
def ReverseDigraph.finiteGraph {G Node Edge : Type} (F : FiniteGraph G Node Edge) :
    FiniteGraph (ReverseDigraph G) Node Edge where
  NodeItS := ReverseWrapIt F.NodeItS
  EdgeItS := ReverseWrapIt F.EdgeItS
  nodeIt := ReverseWrapIt.gIter F.nodeIt
  edgeIt := ReverseWrapIt.gIter F.edgeIt
  num_nodes := fun g => F.num_nodes g.inner
  num_edges := fun g => F.num_edges g.inner
  nodes_iter := fun g => ⟨F.nodes_iter g.inner⟩
  edges_iter := fun g => ⟨F.edges_iter g.inner⟩
  enodes := fun g e => F.enodes g.inner e

/-- `reversedigraph.rs` lines 158-169: `FiniteDigraph` for
`ReverseDigraph`: `src` delegates to the wrapped graph's `snk` and vice
versa. -/
def ReverseDigraph.finiteDigraph {G Node Edge : Type} (F : FiniteDigraph G Node Edge) :
    FiniteDigraph (ReverseDigraph G) Node Edge where
  toFiniteGraph := ReverseDigraph.finiteGraph F.toFiniteGraph
  src := fun g e => F.snk g.inner e
  snk := fun g e => F.src g.inner e

/-- `reversedigraph.rs` lines 171-183: `Undirected` for `ReverseDigraph`:
neighbor iteration delegates unchanged. -/
def ReverseDigraph.undirected {G Node Edge : Type} (U : Undirected G Node Edge) :
    Undirected (ReverseDigraph G) Node Edge where
  NeighItS := ReverseWrapIt U.NeighItS
  neighIt := ReverseWrapIt.gIter U.neighIt
  neigh_iter := fun g u => ⟨U.neigh_iter g.inner u⟩

/-- `reversedigraph.rs` lines 185-204: `IndexGraph` for `ReverseDigraph`:
all four identifier methods delegate unchanged. -/
def ReverseDigraph.indexGraph {G Node Edge : Type} (X : IndexGraph G Node Edge) :
    IndexGraph (ReverseDigraph G) Node Edge where
  node_id := fun g u => X.node_id g.inner u
  id2node := fun g i => X.id2node g.inner i
  edge_id := fun g e => X.edge_id g.inner e
  id2edge := fun g i => X.id2edge g.inner i

/-- `reversedigraph.rs` lines 229-263: `Directed` for `ReverseDigraph`:
`out_iter` delegates to the wrapped graph's `in_iter` and vice versa;
`incident_iter` wraps the inner incidence iterator in
`ReverseIncidentIt`; the half-edge type is `ReverseDirectedEdge`. -/
def ReverseDigraph.directed {G Node Edge : Type} (D : Directed G Node Edge) :
    Directed (ReverseDigraph G) Node Edge where
  DEdge := ReverseDirectedEdge D.DEdge
  dirEdge := ReverseDirectedEdge.dirEdge D.dirEdge
  OutItS := ReverseWrapIt D.InItS
  InItS := ReverseWrapIt D.OutItS
  IncItS := ReverseIncidentIt D.IncItS
  outIt := ReverseWrapIt.gIter D.inIt
  inIt := ReverseWrapIt.gIter D.outIt
  incidentIt := ReverseIncidentIt.gIter D.incidentIt
  out_iter := fun g u => ⟨D.in_iter g.inner u⟩
  in_iter := fun g u => ⟨D.out_iter g.inner u⟩
  incident_iter := fun g u => ⟨D.incident_iter g.inner u⟩

/-- `reversedigraph.rs` lines 265-267: `pub fn reverse<G: Directed>(g: &G)
-> ReverseDigraph<G> { ReverseDigraph(g) }` -/
def reverse {G : Type} (g : G) : ReverseDigraph G :=
  ⟨g⟩

/-- Modelled from the spec (section 2, `src/traits/refs.rs` not in the
sources): the borrowed/reference-style counterpart of `FiniteGraph`; same
method surface, associated types without a per-call borrow scope. -/
structure FiniteGraphRef (G Node Edge : Type) where
  NodeItS : Type
  EdgeItS : Type
  nodeIt : GraphIterator G NodeItS Node
  edgeIt : GraphIterator G EdgeItS Edge
  num_nodes : G → Nat
  num_edges : G → Nat
  nodes_iter : G → NodeItS
  edges_iter : G → EdgeItS
  enodes : G → Edge → Node × Node

/-- Modelled from the spec (section 2, `src/traits/refs.rs` not in the
sources): reference-style counterpart of `FiniteDigraph`. -/
structure FiniteDigraphRef (G Node Edge : Type) extends FiniteGraphRef G Node Edge where
  src : G → Edge → Node
  snk : G → Edge → Node

/-- Modelled from the spec (section 2, `src/traits/refs.rs` not in the
sources): reference-style counterpart of `Undirected`. -/
structure UndirectedRef (G Node Edge : Type) where
  NeighItS : Type
  neighIt : GraphIterator G NeighItS (Edge × Node)
  neigh_iter : G → Node → NeighItS

/-- Modelled from the spec (section 2, `src/traits/refs.rs` not in the
sources): reference-style counterpart of `Directed`. -/
structure DirectedRef (G Node Edge : Type) where
  DEdge : Type
  dirEdge : DirectedEdgeImpl DEdge Edge
  OutItS : Type
  InItS : Type
  IncItS : Type
  outIt : GraphIterator G OutItS (Edge × Node)
  inIt : GraphIterator G InItS (Edge × Node)
  incidentIt : GraphIterator G IncItS (DEdge × Node)
  out_iter : G → Node → OutItS
  in_iter : G → Node → InItS
  incident_iter : G → Node → IncItS

/-- Modelled from the spec (section 2, `src/traits/refs.rs` not in the
sources): reference-style counterpart of `IndexGraph`. -/
structure IndexGraphRef (G Node Edge : Type) where
  node_id : G → Node → Nat
  edge_id : G → Edge → Nat
  id2node : G → Nat → Node
  id2edge : G → Nat → Edge

/-- `reversedigraph.rs` lines 277-304: `FiniteGraphRef` for
`ReverseDigraph`: delegation identical to the primary `FiniteGraph` impl. -/
def ReverseDigraph.finiteGraphRef {G Node Edge : Type} (F : FiniteGraphRef G Node Edge) :
    FiniteGraphRef (ReverseDigraph G) Node Edge where
  NodeItS := ReverseWrapIt F.NodeItS
  EdgeItS := ReverseWrapIt F.EdgeItS
  nodeIt := ReverseWrapIt.gIter F.nodeIt
  edgeIt := ReverseWrapIt.gIter F.edgeIt
  num_nodes := fun g => F.num_nodes g.inner
  num_edges := fun g => F.num_edges g.inner
  nodes_iter := fun g => ⟨F.nodes_iter g.inner⟩
  edges_iter := fun g => ⟨F.edges_iter g.inner⟩
  enodes := fun g e => F.enodes g.inner e

/-- `reversedigraph.rs` lines 306-317: `FiniteDigraphRef` for
`ReverseDigraph`: `src` delegates to the wrapped graph's `snk` and vice
versa. -/
def ReverseDigraph.finiteDigraphRef {G Node Edge : Type} (F : FiniteDigraphRef G Node Edge) :
    FiniteDigraphRef (ReverseDigraph G) Node Edge where
  toFiniteGraphRef := ReverseDigraph.finiteGraphRef F.toFiniteGraphRef
  src := fun g e => F.snk g.inner e
  snk := fun g e => F.src g.inner e

/-- `reversedigraph.rs` lines 319-328: `UndirectedRef` for
`ReverseDigraph`: neighbor iteration delegates unchanged. -/
def ReverseDigraph.undirectedRef {G Node Edge : Type} (U : UndirectedRef G Node Edge) :
    UndirectedRef (ReverseDigraph G) Node Edge where
  NeighItS := ReverseWrapIt U.NeighItS
  neighIt := ReverseWrapIt.gIter U.neighIt
  neigh_iter := fun g u => ⟨U.neigh_iter g.inner u⟩

/-- `reversedigraph.rs` lines 330-353: `DirectedRef` for `ReverseDigraph`:
out/in swapped, incidence wrapped, as in the primary `Directed` impl. -/
def ReverseDigraph.directedRef {G Node Edge : Type} (D : DirectedRef G Node Edge) :
    DirectedRef (ReverseDigraph G) Node Edge where
  DEdge := ReverseDirectedEdge D.DEdge
  dirEdge := ReverseDirectedEdge.dirEdge D.dirEdge
  OutItS := ReverseWrapIt D.InItS
  InItS := ReverseWrapIt D.OutItS
  IncItS := ReverseIncidentIt D.IncItS
  outIt := ReverseWrapIt.gIter D.inIt
  inIt := ReverseWrapIt.gIter D.outIt
  incidentIt := ReverseIncidentIt.gIter D.incidentIt
  out_iter := fun g u => ⟨D.in_iter g.inner u⟩
  in_iter := fun g u => ⟨D.out_iter g.inner u⟩
  incident_iter := fun g u => ⟨D.incident_iter g.inner u⟩

/-- `reversedigraph.rs` lines 355-374: `IndexGraphRef` for
`ReverseDigraph`: all four identifier methods delegate unchanged. -/
def ReverseDigraph.indexGraphRef {G Node Edge : Type} (X : IndexGraphRef G Node Edge) :
    IndexGraphRef (ReverseDigraph G) Node Edge where
  node_id := fun g u => X.node_id g.inner u
  edge_id := fun g e => X.edge_id g.inner e
  id2node := fun g i => X.id2node g.inner i
  id2edge := fun g i => X.id2edge g.inner i

/-- The observable content of a yielded `(half-edge, neighbor)` pair:
underlying plain edge handle, `is_outgoing` flag, `is_incoming` flag, and
the neighbor.  Used to compare incidence iterations across distinct
half-edge types. -/
def obsHalf {D Edge N : Type} (de : DirectedEdgeImpl D Edge) (p : D × N) :
    Edge × Bool × Bool × N :=
  (de.edge p.1, de.is_outgoing p.1, de.is_incoming p.1, p.2)

/-- Swap the two orientation flags inside an observable tuple. -/
def swapFlags {Edge N : Type} (q : Edge × Bool × Bool × N) : Edge × Bool × Bool × N :=
  (q.1, q.2.2.1, q.2.1, q.2.2.2)

/-- Agreement of the reference-style trait family with the primary family
on one graph value: every query of the spec (src/snk, counts, enodes,
identifiers, out/in iteration, and incidence iteration compared through
its observables) returns the same results in both families. -/
def familiesAgree {G Node Edge : Type} (Fr : FiniteDigraphRef G Node Edge)
    (Dr : DirectedRef G Node Edge) (Xr : IndexGraphRef G Node Edge)
    (F : FiniteDigraph G Node Edge) (D : Directed G Node Edge)
    (X : IndexGraph G Node Edge) (g : G) : Prop :=
  (∀ e, Fr.src g e = F.src g e) ∧
  (∀ e, Fr.snk g e = F.snk g e) ∧
  Fr.num_nodes g = F.num_nodes g ∧
  Fr.num_edges g = F.num_edges g ∧
  (∀ e, Fr.enodes g e = F.enodes g e) ∧
  (∀ u, Xr.node_id g u = X.node_id g u) ∧
  (∀ e, Xr.edge_id g e = X.edge_id g e) ∧
  (∀ i, Xr.id2node g i = X.id2node g i) ∧
  (∀ i, Xr.id2edge g i = X.id2edge g i) ∧
  (∀ u fuel, Dr.outIt.run g fuel (Dr.out_iter g u) = D.outIt.run g fuel (D.out_iter g u)) ∧
  (∀ u fuel, Dr.inIt.run g fuel (Dr.in_iter g u) = D.inIt.run g fuel (D.in_iter g u)) ∧
  (∀ u fuel, (Dr.incidentIt.run g fuel (Dr.incident_iter g u)).map (obsHalf Dr.dirEdge) =
    (D.incidentIt.run g fuel (D.incident_iter g u)).map (obsHalf D.dirEdge))

/-- An iterator over `Unit`-graphs whose state is the list of remaining
items; used to build concrete example graphs. -/
def listIter (A : Type) : GraphIterator Unit (List A) A where
  next := fun s _ =>
    match s with
    | [] => none
    | a :: rest => some (a, rest)
  size_hint := fun s _ => (s.length, some s.length)
  count := fun s _ => s.length

/-- A concrete half-edge type for the example graph: the plain edge handle
together with a flag that is `true` for the outgoing orientation. -/
def sampleDE : DirectedEdgeImpl (Nat × Bool) Nat where
  is_incoming := fun d => !d.2
  is_outgoing := fun d => d.2
  edge := fun d => d.1

/-- A concrete two-node digraph with the single edge `0 : 0 → 1`,
satisfying `enodes e = (src e, snk e)`. -/
def sampleFD : FiniteDigraph Unit Nat Nat where
  NodeItS := List Nat
  EdgeItS := List Nat
  nodeIt := listIter Nat
  edgeIt := listIter Nat
  num_nodes := fun _ => 2
  num_edges := fun _ => 1
  nodes_iter := fun _ => [0, 1]
  edges_iter := fun _ => [0]
  enodes := fun _ _ => (0, 1)
  src := fun _ _ => 0
  snk := fun _ _ => 1

/-- The `Directed` capability of the concrete example graph. -/
def sampleD : Directed Unit Nat Nat where
  DEdge := Nat × Bool
  dirEdge := sampleDE
  OutItS := List (Nat × Nat)
  InItS := List (Nat × Nat)
  IncItS := List ((Nat × Bool) × Nat)
  outIt := listIter (Nat × Nat)
  inIt := listIter (Nat × Nat)
  incidentIt := listIter ((Nat × Bool) × Nat)
  out_iter := fun _ u => if u = 0 then [(0, 1)] else []
  in_iter := fun _ u => if u = 1 then [(0, 0)] else []
  incident_iter := fun _ u =>
    if u = 0 then [((0, true), 1)] else if u = 1 then [((0, false), 0)] else []

/-- The `IndexGraph` capability of the concrete example graph. -/
def sampleX : IndexGraph Unit Nat Nat where
  node_id := fun _ u => u
  id2node := fun _ i => i
  edge_id := fun _ e => e
  id2edge := fun _ i => i

/-- The reference-style family of the concrete example graph, with the
same field values as `sampleFD`. -/
def sampleFDRef : FiniteDigraphRef Unit Nat Nat where
  NodeItS := List Nat
  EdgeItS := List Nat
  nodeIt := listIter Nat
  edgeIt := listIter Nat
  num_nodes := fun _ => 2
  num_edges := fun _ => 1
  nodes_iter := fun _ => [0, 1]
  edges_iter := fun _ => [0]
  enodes := fun _ _ => (0, 1)
  src := fun _ _ => 0
  snk := fun _ _ => 1

/-- The reference-style `Directed` family of the concrete example graph,
with the same field values as `sampleD`. -/
def sampleDRef : DirectedRef Unit Nat Nat where
  DEdge := Nat × Bool
  dirEdge := sampleDE
  OutItS := List (Nat × Nat)
  InItS := List (Nat × Nat)
  IncItS := List ((Nat × Bool) × Nat)
  outIt := listIter (Nat × Nat)
  inIt := listIter (Nat × Nat)
  incidentIt := listIter ((Nat × Bool) × Nat)
  out_iter := fun _ u => if u = 0 then [(0, 1)] else []
  in_iter := fun _ u => if u = 1 then [(0, 0)] else []
  incident_iter := fun _ u =>
    if u = 0 then [((0, true), 1)] else if u = 1 then [((0, false), 0)] else []

/-- The reference-style `IndexGraph` family of the concrete example graph,
with the same field values as `sampleX`. -/
def sampleXRef : IndexGraphRef Unit Nat Nat where
  node_id := fun _ u => u
  edge_id := fun _ e => e
  id2node := fun _ i => i
  id2edge := fun _ i => i

/-- Running a `ReverseWrapIt`-wrapped iterator on the reversed view yields
exactly the inner iterator's items on the inner graph. -/
theorem wrapIt_run_eq {G S A : Type} (it : GraphIterator G S A) (g : G)
    (fuel : Nat) (s : S) :
    (ReverseWrapIt.gIter it).run (reverse g) fuel ⟨s⟩ = it.run g fuel s := by
  induction fuel generalizing s with
  | zero => rfl
  | succ n ih =>
    have hnext : (ReverseWrapIt.gIter it).next ⟨s⟩ (reverse g) =
        (it.next s g).map (fun p => (p.1, (⟨p.2⟩ : ReverseWrapIt S))) := rfl
    rw [GraphIterator.run, GraphIterator.run, hnext]
    cases it.next s g with
    | none => rfl
    | some p => exact congrArg (List.cons p.1) (ih p.2)

/-- Running a `ReverseIncidentIt`-wrapped iterator on the reversed view
yields the inner iterator's items with each half-edge wrapped in
`ReverseDirectedEdge`. -/
theorem incidentIt_run_eq {G S D N : Type} (it : GraphIterator G S (D × N))
    (g : G) (fuel : Nat) (s : S) :
    (ReverseIncidentIt.gIter it).run (reverse g) fuel ⟨s⟩ =
      (it.run g fuel s).map (fun p => (⟨p.1⟩, p.2)) := by
  induction fuel generalizing s with
  | zero => rfl
  | succ n ih =>
    have hnext : (ReverseIncidentIt.gIter it).next ⟨s⟩ (reverse g) =
        (it.next s g).map
          (fun p => (((⟨p.1.1⟩ : ReverseDirectedEdge D), p.1.2),
            (⟨p.2⟩ : ReverseIncidentIt S))) := rfl
    rw [GraphIterator.run, GraphIterator.run, hnext]
    cases it.next s g with
    | none => rfl
    | some p =>
      exact congrArg (List.cons ((⟨p.1.1⟩ : ReverseDirectedEdge D), p.1.2)) (ih p.2)

end RsGraph

namespace RsGraph

/-- C1: for every digraph `G` and every edge `e`, the reversed view `R`
satisfies `src(R, e) = snk(G, e)` and `snk(R, e) = src(G, e)`. -/
theorem claim1_src_snk_swapped {G Node Edge : Type} (F : FiniteDigraph G Node Edge)
    (g : G) (e : Edge) :
    (ReverseDigraph.finiteDigraph F).src (reverse g) e = F.snk g e ∧
    (ReverseDigraph.finiteDigraph F).snk (reverse g) e = F.src g e :=
  ⟨rfl, rfl⟩

/-- C2: for every digraph `G` and node `u`, `out_iter(reverse(G), u)`
yields exactly the `(edge, neighbor)` pairs of `in_iter(G, u)` — the
yielded sequences are equal, hence so are the multisets — and
symmetrically `in_iter(reverse(G), u)` yields the pairs of
`out_iter(G, u)`. -/
theorem claim2_out_in_swapped {G Node Edge : Type} (D : Directed G Node Edge)
    (g : G) (u : Node) (fuel : Nat) :
    (ReverseDigraph.directed D).outIt.run (reverse g) fuel
        ((ReverseDigraph.directed D).out_iter (reverse g) u) =
      D.inIt.run g fuel (D.in_iter g u) ∧
    (ReverseDigraph.directed D).inIt.run (reverse g) fuel
        ((ReverseDigraph.directed D).in_iter (reverse g) u) =
      D.outIt.run g fuel (D.out_iter g u) :=
  ⟨wrapIt_run_eq D.inIt g fuel (D.in_iter g u),
   wrapIt_run_eq D.outIt g fuel (D.out_iter g u)⟩

/-- C3: `incident_iter(reverse(G), u)` yields, position by position, the
elements of `incident_iter(G, u)` with each half-edge wrapped in
`ReverseDirectedEdge` — so the same neighbors and, since the wrapper
preserves the underlying plain edge handle and swaps the two orientation
flags, the same `(edge, neighbor)` multiset with every orientation flag
inverted. -/
theorem claim3_incident_flags_inverted {G Node Edge : Type} (D : Directed G Node Edge)
    (g : G) (u : Node) (fuel : Nat) :
    (ReverseDigraph.directed D).incidentIt.run (reverse g) fuel
        ((ReverseDigraph.directed D).incident_iter (reverse g) u) =
      (D.incidentIt.run g fuel (D.incident_iter g u)).map
        (fun p => ((⟨p.1⟩ : ReverseDirectedEdge D.DEdge), p.2)) ∧
    ∀ d : D.DEdge,
      (ReverseDigraph.directed D).dirEdge.edge ⟨d⟩ = D.dirEdge.edge d ∧
      (ReverseDigraph.directed D).dirEdge.is_outgoing ⟨d⟩ = D.dirEdge.is_incoming d ∧
      (ReverseDigraph.directed D).dirEdge.is_incoming ⟨d⟩ = D.dirEdge.is_outgoing d :=
  ⟨incidentIt_run_eq D.incidentIt g fuel (D.incident_iter g u),
   fun _ => ⟨rfl, rfl, rfl⟩⟩

/-- C4: the reversed view leaves the node set, edge set, counts and
identifiers unchanged: counts, the node and edge enumerations, and all
four identifier methods delegate to the wrapped graph unchanged. -/
theorem claim4_frame_unchanged {G Node Edge : Type} (F : FiniteGraph G Node Edge)
    (X : IndexGraph G Node Edge) (g : G) (u : Node) (e : Edge) (i : Nat) (fuel : Nat) :
    (ReverseDigraph.finiteGraph F).num_nodes (reverse g) = F.num_nodes g ∧
    (ReverseDigraph.finiteGraph F).num_edges (reverse g) = F.num_edges g ∧
    (ReverseDigraph.finiteGraph F).nodeIt.run (reverse g) fuel
        ((ReverseDigraph.finiteGraph F).nodes_iter (reverse g)) =
      F.nodeIt.run g fuel (F.nodes_iter g) ∧
    (ReverseDigraph.finiteGraph F).edgeIt.run (reverse g) fuel
        ((ReverseDigraph.finiteGraph F).edges_iter (reverse g)) =
      F.edgeIt.run g fuel (F.edges_iter g) ∧
    (ReverseDigraph.indexGraph X).node_id (reverse g) u = X.node_id g u ∧
    (ReverseDigraph.indexGraph X).edge_id (reverse g) e = X.edge_id g e ∧
    (ReverseDigraph.indexGraph X).id2node (reverse g) i = X.id2node g i ∧
    (ReverseDigraph.indexGraph X).id2edge (reverse g) i = X.id2edge g i :=
  ⟨rfl, rfl,
   wrapIt_run_eq F.nodeIt g fuel (F.nodes_iter g),
   wrapIt_run_eq F.edgeIt g fuel (F.edges_iter g),
   rfl, rfl, rfl, rfl⟩

/-- C7: undirected neighbor iteration passes through the reversed view
unchanged: `neigh_iter(reverse(G), u)` yields exactly the sequence that
`neigh_iter(G, u)` yields. -/
theorem claim7_neigh_unchanged {G Node Edge : Type} (U : Undirected G Node Edge)
    (g : G) (u : Node) (fuel : Nat) :
    (ReverseDigraph.undirected U).neighIt.run (reverse g) fuel
        ((ReverseDigraph.undirected U).neigh_iter (reverse g) u) =
      U.neighIt.run g fuel (U.neigh_iter g u) :=
  wrapIt_run_eq U.neighIt g fuel (U.neigh_iter g u)

/-- C5: applying `reverse` twice is behaviorally equivalent to the
original graph: counts, `enodes`, `src`, `snk`, identifiers, and the node,
edge, out, in, neighbor and incident iterations of
`reverse(reverse(G))` return the results of `G` itself, the incident
half-edges being doubly wrapped with both orientation flags and the
underlying edge handle restored to their original values. -/
theorem claim5_double_reverse {G Node Edge : Type} (F : FiniteDigraph G Node Edge)
    (U : Undirected G Node Edge) (X : IndexGraph G Node Edge)
    (D : Directed G Node Edge) (g : G) (u : Node) (e : Edge) (i : Nat) (fuel : Nat) :
    (ReverseDigraph.finiteDigraph (ReverseDigraph.finiteDigraph F)).num_nodes
        (reverse (reverse g)) = F.num_nodes g ∧
    (ReverseDigraph.finiteDigraph (ReverseDigraph.finiteDigraph F)).num_edges
        (reverse (reverse g)) = F.num_edges g ∧
    (ReverseDigraph.finiteDigraph (ReverseDigraph.finiteDigraph F)).enodes
        (reverse (reverse g)) e = F.enodes g e ∧
    (ReverseDigraph.finiteDigraph (ReverseDigraph.finiteDigraph F)).src
        (reverse (reverse g)) e = F.src g e ∧
    (ReverseDigraph.finiteDigraph (ReverseDigraph.finiteDigraph F)).snk
        (reverse (reverse g)) e = F.snk g e ∧
    (ReverseDigraph.indexGraph (ReverseDigraph.indexGraph X)).node_id
        (reverse (reverse g)) u = X.node_id g u ∧
    (ReverseDigraph.indexGraph (ReverseDigraph.indexGraph X)).edge_id
        (reverse (reverse g)) e = X.edge_id g e ∧
    (ReverseDigraph.indexGraph (ReverseDigraph.indexGraph X)).id2node
        (reverse (reverse g)) i = X.id2node g i ∧
    (ReverseDigraph.indexGraph (ReverseDigraph.indexGraph X)).id2edge
        (reverse (reverse g)) i = X.id2edge g i ∧
    (ReverseDigraph.finiteDigraph (ReverseDigraph.finiteDigraph F)).nodeIt.run
        (reverse (reverse g)) fuel
        ((ReverseDigraph.finiteDigraph (ReverseDigraph.finiteDigraph F)).nodes_iter
          (reverse (reverse g))) =
      F.nodeIt.run g fuel (F.nodes_iter g) ∧
    (ReverseDigraph.finiteDigraph (ReverseDigraph.finiteDigraph F)).edgeIt.run
        (reverse (reverse g)) fuel
        ((ReverseDigraph.finiteDigraph (ReverseDigraph.finiteDigraph F)).edges_iter
          (reverse (reverse g))) =
      F.edgeIt.run g fuel (F.edges_iter g) ∧
    (ReverseDigraph.directed (ReverseDigraph.directed D)).outIt.run
        (reverse (reverse g)) fuel
        ((ReverseDigraph.directed (ReverseDigraph.directed D)).out_iter
          (reverse (reverse g)) u) =
      D.outIt.run g fuel (D.out_iter g u) ∧
    (ReverseDigraph.directed (ReverseDigraph.directed D)).inIt.run
        (reverse (reverse g)) fuel
        ((ReverseDigraph.directed (ReverseDigraph.directed D)).in_iter
          (reverse (reverse g)) u) =
      D.inIt.run g fuel (D.in_iter g u) ∧
    (ReverseDigraph.undirected (ReverseDigraph.undirected U)).neighIt.run
        (reverse (reverse g)) fuel
        ((ReverseDigraph.undirected (ReverseDigraph.undirected U)).neigh_iter
          (reverse (reverse g)) u) =
      U.neighIt.run g fuel (U.neigh_iter g u) ∧
    (ReverseDigraph.directed (ReverseDigraph.directed D)).incidentIt.run
        (reverse (reverse g)) fuel
        ((ReverseDigraph.directed (ReverseDigraph.directed D)).incident_iter
          (reverse (reverse g)) u) =
      (D.incidentIt.run g fuel (D.incident_iter g u)).map
        (fun p => ((⟨⟨p.1⟩⟩ : ReverseDirectedEdge (ReverseDirectedEdge D.DEdge)), p.2)) ∧
    ∀ d : D.DEdge,
      (ReverseDigraph.directed (ReverseDigraph.directed D)).dirEdge.edge ⟨⟨d⟩⟩ =
        D.dirEdge.edge d ∧
      (ReverseDigraph.directed (ReverseDigraph.directed D)).dirEdge.is_outgoing ⟨⟨d⟩⟩ =
        D.dirEdge.is_outgoing d ∧
      (ReverseDigraph.directed (ReverseDigraph.directed D)).dirEdge.is_incoming ⟨⟨d⟩⟩ =
        D.dirEdge.is_incoming d := by
  refine ⟨rfl, rfl, rfl, rfl, rfl, rfl, rfl, rfl, rfl, ?_, ?_, ?_, ?_, ?_, ?_,
    fun _ => ⟨rfl, rfl, rfl⟩⟩
  · exact (wrapIt_run_eq (ReverseWrapIt.gIter F.nodeIt) (reverse g) fuel
      ⟨F.nodes_iter g⟩).trans (wrapIt_run_eq F.nodeIt g fuel (F.nodes_iter g))
  · exact (wrapIt_run_eq (ReverseWrapIt.gIter F.edgeIt) (reverse g) fuel
      ⟨F.edges_iter g⟩).trans (wrapIt_run_eq F.edgeIt g fuel (F.edges_iter g))
  · exact (wrapIt_run_eq (ReverseWrapIt.gIter D.outIt) (reverse g) fuel
      ⟨D.out_iter g u⟩).trans (wrapIt_run_eq D.outIt g fuel (D.out_iter g u))
  · exact (wrapIt_run_eq (ReverseWrapIt.gIter D.inIt) (reverse g) fuel
      ⟨D.in_iter g u⟩).trans (wrapIt_run_eq D.inIt g fuel (D.in_iter g u))
  · exact (wrapIt_run_eq (ReverseWrapIt.gIter U.neighIt) (reverse g) fuel
      ⟨U.neigh_iter g u⟩).trans (wrapIt_run_eq U.neighIt g fuel (U.neigh_iter g u))
  · exact (incidentIt_run_eq (ReverseIncidentIt.gIter D.incidentIt) (reverse g)
      fuel ⟨D.incident_iter g u⟩).trans
      (by rw [incidentIt_run_eq, List.map_map]; rfl)

/-- C6, counterexample: on the two-node digraph with the single edge
`0 : 0 → 1` (which itself satisfies `enodes e = (src e, snk e)`), the
reversed view has `enodes = (0, 1)` unchanged but
`(src, snk) = (1, 0)`, so the ordered-pair invariant
`enodes(R, e) = (src(R, e), snk(R, e))` fails on the reversed view. -/
theorem claim6_ordered_invariant_fails :
    ¬ ((ReverseDigraph.finiteDigraph sampleFD).enodes (reverse ()) 0 =
        ((ReverseDigraph.finiteDigraph sampleFD).src (reverse ()) 0,
         (ReverseDigraph.finiteDigraph sampleFD).snk (reverse ()) 0)) := by
  decide

/-- C6, amended: the reversed view passes `enodes` through unchanged, so
whenever the wrapped graph satisfies the ordered invariant
`enodes(G, e) = (src(G, e), snk(G, e))`, the reversed view satisfies
`enodes(R, e) = (snk(R, e), src(R, e))`: the endpoint pair equals the
oriented pair only up to order (the unordered set of endpoints is the
oriented pair's set), not as an ordered pair. -/
theorem claim6_enodes_swapped {G Node Edge : Type} (F : FiniteDigraph G Node Edge)
    (g : G) (e : Edge) (h : F.enodes g e = (F.src g e, F.snk g e)) :
    (ReverseDigraph.finiteDigraph F).enodes (reverse g) e =
      ((ReverseDigraph.finiteDigraph F).snk (reverse g) e,
       (ReverseDigraph.finiteDigraph F).src (reverse g) e) :=
  h

/-- C6, witness for the amended theorem: the concrete two-node digraph
satisfies the ordered invariant, and its reversed view returns the
endpoint pair in `(snk, src)` order. -/
theorem claim6_enodes_swapped_witness :
    sampleFD.enodes () 0 = (sampleFD.src () 0, sampleFD.snk () 0) ∧
    (ReverseDigraph.finiteDigraph sampleFD).enodes (reverse ()) 0 =
      ((ReverseDigraph.finiteDigraph sampleFD).snk (reverse ()) 0,
       (ReverseDigraph.finiteDigraph sampleFD).src (reverse ()) 0) :=
  ⟨rfl, claim6_enodes_swapped sampleFD () 0 rfl⟩

/-- C8: if exactly one of the two orientation flags of a half-edge `d`
is true, then the reversed half-edge also has exactly one flag true, and
its `edge` accessor returns the same underlying plain edge handle. -/
theorem claim8_flag_exclusive {D Edge : Type} (de : DirectedEdgeImpl D Edge) (d : D)
    (h : (de.is_outgoing d).xor (de.is_incoming d) = true) :
    (((ReverseDirectedEdge.dirEdge de).is_outgoing ⟨d⟩).xor
        ((ReverseDirectedEdge.dirEdge de).is_incoming ⟨d⟩) = true) ∧
    (ReverseDirectedEdge.dirEdge de).edge ⟨d⟩ = de.edge d := by
  refine ⟨?_, rfl⟩
  have hc : ((ReverseDirectedEdge.dirEdge de).is_outgoing ⟨d⟩).xor
      ((ReverseDirectedEdge.dirEdge de).is_incoming ⟨d⟩) =
      (de.is_incoming d).xor (de.is_outgoing d) := rfl
  rw [hc, Bool.xor_comm]
  exact h

/-- C8, witness: on the concrete half-edge `(0, true)` (outgoing), the
exclusivity hypothesis holds and the reversed half-edge again has exactly
one flag set, with the same underlying edge handle. -/
theorem claim8_flag_exclusive_witness :
    ((sampleDE.is_outgoing (0, true)).xor (sampleDE.is_incoming (0, true)) = true) ∧
    ((((ReverseDirectedEdge.dirEdge sampleDE).is_outgoing ⟨(0, true)⟩).xor
        ((ReverseDirectedEdge.dirEdge sampleDE).is_incoming ⟨(0, true)⟩) = true) ∧
     (ReverseDirectedEdge.dirEdge sampleDE).edge ⟨(0, true)⟩ = sampleDE.edge (0, true)) :=
  ⟨by decide, claim8_flag_exclusive sampleDE (0, true) (by decide)⟩

/-- C9: the reverse adapter mints no new handle identity: its node and
edge handle types are the wrapped graph's types, `id2node`/`id2edge`
return the wrapped graph's handles, `src`/`snk` return values produced by
the wrapped graph's own `snk`/`src`, node/edge/out/in iteration yields
exactly handles yielded by the wrapped graph, and the plain edge handle
carried inside each yielded half-edge is the wrapped graph's edge
handle. -/
theorem claim9_no_new_handles {G Node Edge : Type} (T : GraphType)
    (F : FiniteDigraph G Node Edge) (X : IndexGraph G Node Edge)
    (D : Directed G Node Edge) (g : G) (u : Node) (i : Nat) (e : Edge) (fuel : Nat) :
    (ReverseDigraph.graphType T).Node = T.Node ∧
    (ReverseDigraph.graphType T).Edge = T.Edge ∧
    (∀ d : D.DEdge, (ReverseDigraph.directed D).dirEdge.edge ⟨d⟩ = D.dirEdge.edge d) ∧
    (ReverseDigraph.indexGraph X).id2node (reverse g) i = X.id2node g i ∧
    (ReverseDigraph.indexGraph X).id2edge (reverse g) i = X.id2edge g i ∧
    (ReverseDigraph.finiteDigraph F).src (reverse g) e = F.snk g e ∧
    (ReverseDigraph.finiteDigraph F).snk (reverse g) e = F.src g e ∧
    (ReverseDigraph.finiteDigraph F).nodeIt.run (reverse g) fuel
        ((ReverseDigraph.finiteDigraph F).nodes_iter (reverse g)) =
      F.nodeIt.run g fuel (F.nodes_iter g) ∧
    (ReverseDigraph.finiteDigraph F).edgeIt.run (reverse g) fuel
        ((ReverseDigraph.finiteDigraph F).edges_iter (reverse g)) =
      F.edgeIt.run g fuel (F.edges_iter g) ∧
    (ReverseDigraph.directed D).outIt.run (reverse g) fuel
        ((ReverseDigraph.directed D).out_iter (reverse g) u) =
      D.inIt.run g fuel (D.in_iter g u) ∧
    (ReverseDigraph.directed D).inIt.run (reverse g) fuel
        ((ReverseDigraph.directed D).in_iter (reverse g) u) =
      D.outIt.run g fuel (D.out_iter g u) ∧
    ((ReverseDigraph.directed D).incidentIt.run (reverse g) fuel
        ((ReverseDigraph.directed D).incident_iter (reverse g) u)).map
        (fun p => ((ReverseDigraph.directed D).dirEdge.edge p.1, p.2)) =
      (D.incidentIt.run g fuel (D.incident_iter g u)).map
        (fun p => (D.dirEdge.edge p.1, p.2)) := by
  refine ⟨rfl, rfl, fun _ => rfl, rfl, rfl, rfl, rfl,
    wrapIt_run_eq F.nodeIt g fuel (F.nodes_iter g),
    wrapIt_run_eq F.edgeIt g fuel (F.edges_iter g),
    wrapIt_run_eq D.inIt g fuel (D.in_iter g u),
    wrapIt_run_eq D.outIt g fuel (D.out_iter g u), ?_⟩
  exact (congrArg (List.map (fun p => ((ReverseDigraph.directed D).dirEdge.edge p.1, p.2)))
    (incidentIt_run_eq D.incidentIt g fuel (D.incident_iter g u))).trans
    (by rw [List.map_map])

/-- C10: whenever a graph's reference-style trait family agrees with its
primary family on every query of the spec, the two families also agree on
the reversed view (`src`/`snk`, counts, `enodes`, identifiers, out/in
iteration, and incidence iteration compared through its observable
content). -/
theorem claim10_ref_family_agrees {G Node Edge : Type}
    (Fr : FiniteDigraphRef G Node Edge) (Dr : DirectedRef G Node Edge)
    (Xr : IndexGraphRef G Node Edge) (F : FiniteDigraph G Node Edge)
    (D : Directed G Node Edge) (X : IndexGraph G Node Edge) (g : G)
    (h : familiesAgree Fr Dr Xr F D X g) :
    familiesAgree (ReverseDigraph.finiteDigraphRef Fr) (ReverseDigraph.directedRef Dr)
      (ReverseDigraph.indexGraphRef Xr) (ReverseDigraph.finiteDigraph F)
      (ReverseDigraph.directed D) (ReverseDigraph.indexGraph X) (reverse g) := by
  obtain ⟨h1, h2, h3, h4, h5, h6, h7, h8, h9, h10, h11, h12⟩ := h
  refine ⟨fun e => h2 e, fun e => h1 e, h3, h4, fun e => h5 e, fun u => h6 u,
    fun e => h7 e, fun i => h8 i, fun i => h9 i, ?_, ?_, ?_⟩
  · intro u fuel
    exact (wrapIt_run_eq Dr.inIt g fuel (Dr.in_iter g u)).trans
      ((h11 u fuel).trans (wrapIt_run_eq D.inIt g fuel (D.in_iter g u)).symm)
  · intro u fuel
    exact (wrapIt_run_eq Dr.outIt g fuel (Dr.out_iter g u)).trans
      ((h10 u fuel).trans (wrapIt_run_eq D.outIt g fuel (D.out_iter g u)).symm)
  · intro u fuel
    calc ((ReverseDigraph.directedRef Dr).incidentIt.run (reverse g) fuel
          ((ReverseDigraph.directedRef Dr).incident_iter (reverse g) u)).map
            (obsHalf (ReverseDigraph.directedRef Dr).dirEdge)
        = ((Dr.incidentIt.run g fuel (Dr.incident_iter g u)).map
            (fun p => ((⟨p.1⟩ : ReverseDirectedEdge Dr.DEdge), p.2))).map
            (obsHalf (ReverseDigraph.directedRef Dr).dirEdge) :=
          congrArg (List.map (obsHalf (ReverseDigraph.directedRef Dr).dirEdge))
            (incidentIt_run_eq Dr.incidentIt g fuel (Dr.incident_iter g u))
      _ = ((Dr.incidentIt.run g fuel (Dr.incident_iter g u)).map
            (obsHalf Dr.dirEdge)).map swapFlags := by
          rw [List.map_map, List.map_map]; rfl
      _ = ((D.incidentIt.run g fuel (D.incident_iter g u)).map
            (obsHalf D.dirEdge)).map swapFlags :=
          congrArg (List.map swapFlags) (h12 u fuel)
      _ = ((D.incidentIt.run g fuel (D.incident_iter g u)).map
            (fun p => ((⟨p.1⟩ : ReverseDirectedEdge D.DEdge), p.2))).map
            (obsHalf (ReverseDigraph.directed D).dirEdge) := by
          rw [List.map_map, List.map_map]; rfl
      _ = ((ReverseDigraph.directed D).incidentIt.run (reverse g) fuel
          ((ReverseDigraph.directed D).incident_iter (reverse g) u)).map
            (obsHalf (ReverseDigraph.directed D).dirEdge) :=
          (congrArg (List.map (obsHalf (ReverseDigraph.directed D).dirEdge))
            (incidentIt_run_eq D.incidentIt g fuel (D.incident_iter g u))).symm

/-- C10, witness: on the concrete two-node digraph the two trait families
agree (they share every field value), and therefore agree on the reversed
view as well. -/
theorem claim10_ref_family_agrees_witness :
    familiesAgree sampleFDRef sampleDRef sampleXRef sampleFD sampleD sampleX () ∧
    familiesAgree (ReverseDigraph.finiteDigraphRef sampleFDRef)
      (ReverseDigraph.directedRef sampleDRef) (ReverseDigraph.indexGraphRef sampleXRef)
      (ReverseDigraph.finiteDigraph sampleFD) (ReverseDigraph.directed sampleD)
      (ReverseDigraph.indexGraph sampleX) (reverse ()) :=
  ⟨⟨fun _ => rfl, fun _ => rfl, rfl, rfl, fun _ => rfl, fun _ => rfl, fun _ => rfl,
    fun _ => rfl, fun _ => rfl, fun _ _ => rfl, fun _ _ => rfl, fun _ _ => rfl⟩,
   claim10_ref_family_agrees sampleFDRef sampleDRef sampleXRef sampleFD sampleD sampleX ()
    ⟨fun _ => rfl, fun _ => rfl, rfl, rfl, fun _ => rfl, fun _ => rfl, fun _ => rfl,
     fun _ => rfl, fun _ => rfl, fun _ _ => rfl, fun _ _ => rfl, fun _ _ => rfl⟩⟩

end RsGraph
